import Mathlib

/-! Formal model of the EMUnion bot backend (`bot.py`): the sqlite-backed
binding store, the Minecraft server status prober, the whitelist controller
interface, and the webhook command dispatcher `mainHander`, together with
theorems about their behaviour.  Python runtime values that can be either a
string or a function object are modelled by `PyVal`; exceptions that can
escape a handler are modelled by `PyExn`. -/

inductive PyVal where
  | str : String → PyVal
  | func : String → PyVal
deriving DecidableEq, Repr

inductive PyExn where
  | serverConnectionError : String → PyExn
  | typeError : PyExn
  | indexError : PyExn
  | valueError : PyExn
deriving DecidableEq, Repr

inductive PyResult (α : Type) where
  | ok : α → PyResult α
  | exn : PyExn → PyResult α
deriving DecidableEq, Repr

/-- One row of the `bind` table: `qq TEXT PRIMARY KEY, mc TEXT,
is_admin BOOLEAN DEFAULT FALSE, ban BOOLEAN DEFAULT FALSE`. -/
structure Row where
  qq : String
  mc : Option String
  is_admin : Bool
  ban : Bool
deriving DecidableEq, Repr

abbrev Store := List Row

/-- Python truthiness of an optional string argument (`if qq:`). -/
def truthyStr : Option String → Bool
  | none => false
  | some s => s ≠ ""

/-- Python truthiness of an optional `PyVal` argument (`if mc:`);
a function object is always truthy. -/
def truthyVal : Option PyVal → Bool
  | none => false
  | some (.str s) => s ≠ ""
  | some (.func _) => true

/-- How Python renders a `PyVal` inside an f-string (a function object is
rendered by its repr, modelled here without the address). -/
def renderPyVal : PyVal → String
  | .str s => s
  | .func n => "<function " ++ n ++ ">"

/-- `init_database(admin_list)`: `INSERT OR REPLACE INTO bind (qq, is_admin)
VALUES (?, TRUE)` for each configured admin.  `INSERT OR REPLACE` deletes any
conflicting row and inserts a fresh one, so `mc` and `ban` fall back to their
defaults (`NULL` and `FALSE`). -/
def init_database (admin_list : List String) (st : Store) : Store :=
  admin_list.foldl
    (fun s qq => s.filter (fun r => r.qq ≠ qq) ++ [⟨qq, none, true, false⟩]) st

/-- `add_bind(qq, mc)`: `INSERT INTO bind (qq, mc) VALUES (?, ?) ON
CONFLICT(qq) DO UPDATE SET mc=excluded.mc`; returns `True` on success. -/
def add_bind (st : Store) (qq mc : String) : Store × Bool :=
  if st.any (fun r => r.qq = qq) then
    (st.map (fun r => if r.qq = qq then { r with mc := some mc } else r), true)
  else
    (st ++ [⟨qq, some mc, false, false⟩], true)

/-- `remove_bind(qq=None, mc=None)`: raises `ValueError` when both arguments
are falsy, otherwise deletes by `qq` (preferred) or by `mc` and returns
`cursor.rowcount > 0`.  Binding a function object as the `mc` parameter makes
`sqlite3` raise an error that the `except sqlite3.Error` clause turns into a
rollback and a `False` return. -/
def remove_bind (st : Store) (qq : Option String) (mc : Option PyVal) :
    PyResult (Store × Bool) :=
  if ¬ truthyStr qq ∧ ¬ truthyVal mc then .exn .valueError
  else if truthyStr qq then
    let st2 := st.filter (fun r => some r.qq ≠ qq)
    .ok (st2, st2.length < st.length)
  else
    match mc with
    | some (.str m) =>
        let st2 := st.filter (fun r => r.mc ≠ some m)
        .ok (st2, st2.length < st.length)
    | some (.func _) => .ok (st, false)
    | none => .ok (st, false)

/-- `ban_bind(qq=None, mc=None)`: runs the `qq` update and then the `mc`
update (both `if`s are independent), commits, and returns
`cursor.rowcount > 0` of the last executed statement (`-1 > 0 = False` when
nothing ran).  A function object as `mc` raises inside the `try`, which rolls
everything back and returns `False`. -/
def ban_bind (st : Store) (qq : Option String) (mc : Option PyVal) :
    Store × Bool :=
  match mc with
  | some (.func _) => (st, false)
  | _ =>
    let ranQ := truthyStr qq
    let cntQ := (st.filter (fun r => some r.qq = qq)).length
    let stQ := if ranQ then
        st.map (fun r => if some r.qq = qq then { r with ban := true } else r)
      else st
    match mc with
    | some (.str m) =>
      if m ≠ "" then
        let cntM := (stQ.filter (fun r => r.mc = some m)).length
        (stQ.map (fun r => if r.mc = some m then { r with ban := true } else r),
         decide (0 < cntM))
      else (stQ, ranQ && decide (0 < cntQ))
    | _ => (stQ, ranQ && decide (0 < cntQ))

/-- `query_count(qq=None, mc=None)`: counts rows by `qq` (preferred) or `mc`;
raises `ValueError` (inside the `try`, but it is not a `sqlite3.Error`, so it
escapes) when both are falsy.  A function object as `mc` raises a
`sqlite3.Error`, which the handler turns into a `0` return. -/
def query_count (st : Store) (qq : Option String) (mc : Option PyVal) :
    PyResult Nat :=
  if truthyStr qq then
    .ok (st.filter (fun r => some r.qq = qq)).length
  else
    match mc with
    | some (.str m) =>
        if m ≠ "" then .ok (st.filter (fun r => r.mc = some m)).length
        else .exn .valueError
    | some (.func _) => .ok 0
    | none => .exn .valueError

/-- `query_username(qq=None)`: `SELECT mc FROM bind WHERE qq = ?` followed by
`cursor.fetchone()[0]`.  When no row matches, `fetchone()` returns `None` and
the subscript raises a `TypeError`, which the `except sqlite3.Error` clause
does not catch. -/
def query_username (st : Store) (qq : Option String) :
    PyResult (Option String) :=
  match st.find? (fun r => some r.qq = qq) with
  | some r => .ok r.mc
  | none => .exn .typeError

/-- `query_ban(qq=None, mc=None)`: raises `ValueError` when both arguments are
falsy; otherwise unions the `ban` columns selected by `qq` and by `mc` and
returns whether any is true.  A function object bound as a parameter raises a
`sqlite3.Error`, caught and turned into `False`. -/
def query_ban (st : Store) (qq : Option String) (mc : Option PyVal) :
    PyResult Bool :=
  if ¬ truthyStr qq ∧ ¬ truthyVal mc then .exn .valueError
  else
    match mc with
    | some (.func _) => .ok false
    | _ =>
      let qqBans := if truthyStr qq then
          (st.filter (fun r => some r.qq = qq)).map (fun r => r.ban)
        else []
      let mcBans := match mc with
        | some (.str m) =>
            if m ≠ "" then (st.filter (fun r => r.mc = some m)).map (fun r => r.ban)
            else []
        | _ => []
      .ok ((qqBans ++ mcBans).any id)

/-- `force_edit_database(qq, mc)`: same upsert as `add_bind`, no return
value. -/
def force_edit_database (st : Store) (qq mc : String) : Store :=
  if st.any (fun r => r.qq = qq) then
    st.map (fun r => if r.qq = qq then { r with mc := some mc } else r)
  else
    st ++ [⟨qq, some mc, false, false⟩]

/-- Python `str.isascii()`: every code point below 128 (true on `""`). -/
def pyIsAscii (s : String) : Bool :=
  s.data.all (fun c => c.toNat ≤ 127)

/-- Python `str.isdigit()`: nonempty and all digits. -/
def pyIsDigit (s : String) : Bool :=
  s ≠ "" && s.data.all Char.isDigit

/-- Python `str.startswith(pre)`. -/
def pyStarts (s pre : String) : Bool :=
  pre.data.isPrefixOf s.data

/-- Python `str.split(" ")`: split on every single space, keeping empty
pieces. -/
def pySplit (s : String) : List String :=
  (s.data.splitOn ' ').map String.mk

/-- A value of the heterogeneous dict returned by the prober (`motd` and
`latency` are strings on success but the integer `-1` on failure). -/
inductive PyField where
  | str : String → PyField
  | int : Int → PyField
deriving DecidableEq, Repr

/-- What one successful `status()` + `query()` round trip yields (latency is
carried already rendered by `round(..., 2)`). -/
structure ProbePayload where
  version : String
  protocol : Int
  players : List String
  players_online : Int
  players_max : Int
  motd : String
  latency : String
deriving DecidableEq, Repr

/-- Outcome of one attempt of the loop body in `getMinecraftServerInfo`:
either the round trip succeeds, or it raises one of the caught exception
types (`TimeoutError`, `socket.gaierror`) with a message. -/
inductive AttemptResult where
  | ok : ProbePayload → AttemptResult
  | caught : String → AttemptResult
deriving DecidableEq, Repr

/-- The dict returned by `getMinecraftServerInfo`. -/
structure MCInfo where
  version : String
  protocol_version : Int
  players : List String
  players_online : Int
  players_max : Int
  motd : PyField
  latency : PyField
  online : Bool
  error : Bool
  msg : String
deriving DecidableEq, Repr

/-- The success dict built at the top of the loop body. -/
def mkOnlineInfo (p : ProbePayload) : MCInfo :=
  ⟨p.version, p.protocol, p.players, p.players_online, p.players_max,
   .str p.motd, .str p.latency, true, false, "success"⟩

/-- The dict returned from the `except (TimeoutError, socket.gaierror)`
branch (`online=False, error=True, msg=e`). -/
def mkCaughtInfo (m : String) : MCInfo :=
  ⟨"N/A", -1, [], -1, -1, .int (-1), .int (-1), false, true, m⟩

/-- The dict returned after the `for` loop (`online=False, error=False`). -/
def mkFallbackInfo : MCInfo :=
  ⟨"N/A", -1, [], -1, -1, .int (-1), .int (-1), false, false, "success"⟩

/-- The `for i in range(5)` loop of `getMinecraftServerInfo`: iteration `i`
performs one round trip (modelled by the oracle `probe i`) and returns on
every path of its body, so the loop never reaches a second iteration.  The
second component counts the attempts performed. -/
def mcLoop (probe : Nat → AttemptResult) : Nat → Nat → MCInfo × Nat
  | _, 0 => (mkFallbackInfo, 0)
  | i, _ + 1 =>
    match probe i with
    | .ok p => (mkOnlineInfo p, i + 1)
    | .caught m => (mkCaughtInfo m, i + 1)

/-- `getMinecraftServerInfo(server_address)`, with the network modelled by
the per-attempt oracle. -/
def getMinecraftServerInfo (probe : Nat → AttemptResult) : MCInfo × Nat :=
  mcLoop probe 0 5

/-- One `{name, host, port}` entry of the configured `servers` list. -/
structure ServerCfg where
  name : String
  host : String
  port : Nat
deriving DecidableEq, Repr

/-- Rendering of a dict field in an f-string. -/
def renderPyField : PyField → String
  | .str s => s
  | .int i => toString i

/-- `str(players).replace("[","").replace("]","").replace("'","") if players
else "无"`. -/
def renderPlayers (players : List String) : String :=
  if players = [] then "无" else String.intercalate ", " players

/-- The `singleMsg` built for one configured server inside the loop of
`statusHandler`. -/
def serverSegment (probe : String → Nat → AttemptResult) (serv : ServerCfg) :
    String :=
  let status := (getMinecraftServerInfo (probe (serv.host ++ ":" ++ toString serv.port))).1
  if status.online then
    "\n            \n服务器名称：" ++ serv.name ++
    "\n延迟：" ++ renderPyField status.latency ++ " ms" ++
    "\n在线人数：" ++ toString status.players_online ++ "/" ++
    toString status.players_max ++
    "\n在线玩家：" ++ renderPlayers status.players ++
    "\n当前状态：在线"
  else if status.error then
    "\n服务器名称：" ++ serv.name ++ "            " ++
    "\n当前状态：未知（" ++ status.msg ++ "）"
  else
    "\n            \n服务器名称：" ++ serv.name ++ "\n当前状态：离线"

/-- `statusHandler(qid)`: header plus one segment per configured server. -/
def statusHandler (servers : List ServerCfg)
    (probe : String → Nat → AttemptResult) (qid : String) : String :=
  servers.foldl (fun msg serv => msg ++ serverSegment probe serv)
    ("[CQ:at,qq=" ++ qid ++ "] ====== 服务器状态一览 ======")

/-- `helpHandler(qid)`. -/
def helpHandler (qid : String) : String :=
  "[CQ:at,qq=" ++ qid ++ "] ====== EMUnion Bot 帮助信息 ======" ++
  "\n● 使用 /status 查看服务器当前状态" ++
  "\n● 使用 /bind <name> 来自助添加白名单" ++
  "\n● 使用 /unbind 来解除QQ与白名单的绑定"

/-- A recorded invocation of the whitelist controller (the external
`MinecraftClient.exe` process): an `!!awr add` or `!!awr remove` command with
the value interpolated into it. -/
inductive WLCall where
  | add : String → WLCall
  | remove : PyVal → WLCall
deriving DecidableEq, Repr

/-- Static configuration plus the oracles for the external world: `addOk n`
(resp. `removeOk v`) tells whether the transcript of the whitelist process
contains the success marker for that argument. -/
structure Config where
  admin : List String
  servers : List ServerCfg
  probe : String → Nat → AttemptResult
  addOk : String → Bool
  removeOk : PyVal → Bool

/-- The fields of the inbound POST body that the handler reads. -/
structure Event where
  raw_message : String
  user_id : String
deriving DecidableEq, Repr

/-- Observable outcome of one webhook invocation: the binding store after the
request, the whitelist-controller invocations, the reply text handed to the
gateway client (`none` when no reply is dispatched), and the HTTP response
(`ok "success"`, or the exception that escaped the handler). -/
structure Effects where
  store : Store
  wlCalls : List WLCall
  reply : Option String
  response : PyResult String
deriving DecidableEq, Repr

/-- Result of `bindHandler(msg, qid)` together with its side effects.  Note
the `except ServerConnectionError` branch evaluates an f-string without
assigning or returning it, so control falls through to the same success
`return` in both cases; `add_bind` runs only when the whitelist call
succeeded. -/
def bindHandler (cfg : Config) (st : Store) (msg : String) (qid : String) :
    String × Store × List WLCall :=
  let split := pySplit msg
  if split.length ≠ 2 then
    ("[CQ:at,qq=" ++ qid ++ "] 绑定命令正确用法：/bind <name>", st, [])
  else if ¬ pyIsAscii (split.getD 1 "") then
    ("[CQ:at,qq=" ++ qid ++ "] 请输入正确的游戏名称！" ++ split.getD 1 "" ++
     " 不是合法的游戏名！", st, [])
  else
    let name := split.getD 1 ""
    if cfg.addOk name then
      let (st2, _) := add_bind st qid name
      ("[CQ:at,qq=" ++ qid ++ "] 已为玩家 " ++ name ++ " 添加白名单！", st2,
       [.add name])
    else
      ("[CQ:at,qq=" ++ qid ++ "] 已为玩家 " ++ name ++ " 添加白名单！", st,
       [.add name])

/-- Shorthand for an invocation that raised: the mutations committed before
the exception persist, no reply is dispatched, the HTTP response is the
exception instead of `"success"`. -/
def raisedEffects (st : Store) (calls : List WLCall) (e : PyExn) : Effects :=
  ⟨st, calls, none, .exn e⟩

/-- Shorthand for an invocation that completed: the reply is sent to the
gateway and the HTTP response is `"success"`. -/
def repliedEffects (st : Store) (calls : List WLCall) (msg : String) : Effects :=
  ⟨st, calls, some msg, .ok "success"⟩

/-- The `/bind` elif branch of `mainHander`: the dead usage f-string leaves
`msg` equal to the raw message, then the two ban checks, the two
duplicate checks and finally `bindHandler`. -/
def bindBranch (cfg : Config) (st : Store) (raw qid : String) : Effects :=
  if (pySplit raw).length ≠ 2 then
    repliedEffects st [] raw
  else
    let name := (pySplit raw).getD 1 ""
    match query_ban st (some qid) none with
    | .exn e => raisedEffects st [] e
    | .ok true =>
        repliedEffects st [] ("[CQ:at,qq=" ++ qid ++ "] 你的QQ无法绑定账户，请联系管理员！")
    | .ok false =>
      match query_ban st none (some (.str name)) with
      | .exn e => raisedEffects st [] e
      | .ok true =>
          repliedEffects st [] ("[CQ:at,qq=" ++ qid ++ "] 此用户名无法绑定，请联系管理员！")
      | .ok false =>
        match query_count st (some qid) none with
        | .exn e => raisedEffects st [] e
        | .ok cq =>
          if cq ≠ 0 then
            repliedEffects st []
              ("[CQ:at,qq=" ++ qid ++ "] 你已经拥有绑定的游戏ID了！本服务器一人一号，如有其他需要请联系管理员！")
          else
            match query_count st none (some (.str name)) with
            | .exn e => raisedEffects st [] e
            | .ok cm =>
              if cm ≠ 0 then
                repliedEffects st []
                  ("[CQ:at,qq=" ++ qid ++ "] 此用户名 " ++ name ++ " 已经被绑定！请联系管理员！")
              else
                let (reply, st2, calls) := bindHandler cfg st raw qid
                repliedEffects st2 calls reply

/-- The `/unbind` elif branch of `mainHander`: `remove_bind` on the sender id
runs first, then `username` is bound to the `query_username` function object
itself (the call is missing in the source), the whitelist removal runs on
that object, and `remove_bind(mc=username)` fails inside sqlite. -/
def unbindBranch (cfg : Config) (st : Store) (qid : String) : Effects :=
  match remove_bind st (some qid) none with
  | .exn e => raisedEffects st [] e
  | .ok (st1, true) =>
    let username : PyVal := .func "query_username"
    if cfg.removeOk username then
      match remove_bind st1 none (some username) with
      | .exn e => raisedEffects st1 [.remove username] e
      | .ok (st2, _) =>
          repliedEffects st2 [.remove username]
            ("[CQ:at,qq=" ++ qid ++ "] 已经为你解除 " ++ renderPyVal username ++ " 的绑定！")
    else
      raisedEffects st1 [.remove username]
        (.serverConnectionError "移除失败，请重试！")
  | .ok (st1, false) =>
      repliedEffects st1 [] ("[CQ:at,qq=" ++ qid ++ "] 解除绑定失败！请联系管理员！")

/-- The `/admin` elif branch of `mainHander`.  The reply f-strings of the
`unbind` and `ban` sub-commands subscript `commands[3]` of a three-token
command and raise `IndexError` after the store was already mutated; a
sub-command other than `bind`/`unbind`/`ban` leaves `msg` as the raw
message. -/
def adminBranch (cfg : Config) (st : Store) (raw qid : String) : Effects :=
  let commands := pySplit raw
  if qid ∉ cfg.admin then
    repliedEffects st [] ("[CQ:at,qq=" ++ qid ++ "] 你不在bot管理员列表内！")
  else if commands.length = 1 then
    repliedEffects st []
      ("[CQ:at,qq=" ++ qid ++ "] ====== 管理员命令列表 ======" ++
       "\n● 使用/admin bind <QQ> <name> 来为玩家强制绑定" ++
       "\n● 使用/admin unbind <name> 来为玩家强制接触绑定" ++
       "\n● 使用/admin ban <name> 来封禁一名玩家")
  else if commands.getD 1 "" = "bind" then
    if commands.length ≠ 4 ∨ ¬ pyIsDigit (commands.getD 2 "") ∨
       ¬ pyIsAscii (commands.getD 3 "") then
      repliedEffects st []
        ("[CQ:at,qq=" ++ qid ++ "] 管理员命令/admin bind <QQ> <name>，请正确使用！")
    else if cfg.addOk (commands.getD 3 "") then
      let st2 := force_edit_database st (commands.getD 2 "") (commands.getD 3 "")
      repliedEffects st2 [.add (commands.getD 3 "")]
        ("[CQ:at,qq=" ++ qid ++ "] 已经为 " ++ commands.getD 2 "" ++
         " 添加了用户名 " ++ commands.getD 3 "" ++ " 的绑定！")
    else
      raisedEffects st [.add (commands.getD 3 "")]
        (.serverConnectionError "添加失败，请重试！")
  else if commands.getD 1 "" = "unbind" then
    if commands.length ≠ 3 ∨ ¬ pyIsAscii (commands.getD 2 "") then
      repliedEffects st []
        ("[CQ:at,qq=" ++ qid ++ "] 管理员命令/admin unbind <name>，请正确使用！")
    else if cfg.removeOk (.str (commands.getD 2 "")) then
      match remove_bind st none (some (.str (commands.getD 2 ""))) with
      | .exn e => raisedEffects st [.remove (.str (commands.getD 2 ""))] e
      | .ok (st2, _) =>
          raisedEffects st2 [.remove (.str (commands.getD 2 ""))] .indexError
    else
      raisedEffects st [.remove (.str (commands.getD 2 ""))]
        (.serverConnectionError "移除失败，请重试！")
  else if commands.getD 1 "" = "ban" then
    if commands.length ≠ 3 ∨ ¬ pyIsAscii (commands.getD 2 "") then
      repliedEffects st []
        ("[CQ:at,qq=" ++ qid ++ "] 管理员命令/admin ban <name>，请正确使用！")
    else if cfg.removeOk (.str (commands.getD 2 "")) then
      let (st2, _) := ban_bind st none (some (.str (commands.getD 2 "")))
      raisedEffects st2 [.remove (.str (commands.getD 2 ""))] .indexError
    else
      raisedEffects st [.remove (.str (commands.getD 2 ""))]
        (.serverConnectionError "移除失败，请重试！")
  else
    repliedEffects st [] raw

/-- The root POST handler `mainHander` of `bot.py`, modelled as a function
from the configuration, the current binding store and the inbound event to
the observable `Effects`; its elif chain dispatches to the branch functions
above. -/
def mainHander (cfg : Config) (st : Store) (ev : Event) : Effects :=
  let qid := ev.user_id
  let raw := ev.raw_message
  if raw = "/status" then
    repliedEffects st [] (statusHandler cfg.servers cfg.probe qid)
  else if raw = "/help" then
    repliedEffects st [] (helpHandler qid)
  else if pyStarts raw "/bind" then
    bindBranch cfg st raw qid
  else if raw = "/unbind" then
    unbindBranch cfg st qid
  else if pyStarts raw "/admin" then
    adminBranch cfg st raw qid
  else
    ⟨st, [], none, .ok "success"⟩

/-- A configuration with constant whitelist oracles and an unreachable
probe, used to evaluate the dispatcher on concrete scenarios. -/
def mkConfig (adm : List String) (aOk rOk : Bool) : Config :=
  ⟨adm, [], fun _ _ => .caught "probe", fun _ => aOk, fun _ => rOk⟩

/-- C1: for a sender with a binding, `/unbind` does not look up the bound
username: it binds `username` to the `query_username` function object itself
(after already deleting the sender's row), so the whitelist removal is
invoked with that function object rather than the bound name "Steve", the
row keyed by the name is not what gets deleted, and the reply names the
function object, not "Steve". -/
theorem c1_unbind_uses_function_reference :
    (mainHander (mkConfig [] true true) [⟨"1001", some "Steve", false, false⟩]
      ⟨"/unbind", "1001"⟩).wlCalls = [.remove (.func "query_username")] ∧
    (mainHander (mkConfig [] true true) [⟨"1001", some "Steve", false, false⟩]
      ⟨"/unbind", "1001"⟩).reply =
      some "[CQ:at,qq=1001] 已经为你解除 <function query_username> 的绑定！" ∧
    (mainHander (mkConfig [] true true) [⟨"1001", some "Steve", false, false⟩]
      ⟨"/unbind", "1001"⟩).reply ≠
      some "[CQ:at,qq=1001] 已经为你解除 Steve 的绑定！" ∧
    PyVal.func "query_username" ≠ PyVal.str "Steve" := by
  refine ⟨rfl, rfl, ?_, ?_⟩ <;> decide

/-- C2 counterexample: the ban flag lives on the binding row, and `/unbind`
deletes that row before anything else, erasing the ban.  Starting from a
store whose only row carries `mc = "Bad"` with `ban = true`, the sequence
`/unbind` (sent by the banned row's own id) followed by `/bind Bad` from
another sender ends with a fresh binding for the banned username "Bad",
refuting the claim that a banned username can never acquire a binding. -/
theorem c2_ban_erased_by_unbind_counterexample :
    (∃ r ∈ ([⟨"1001", some "Bad", false, true⟩] : Store),
        r.mc = some "Bad" ∧ r.ban = true) ∧
    (mainHander (mkConfig [] true false)
      (mainHander (mkConfig [] true false) [⟨"1001", some "Bad", false, true⟩]
        ⟨"/unbind", "1001"⟩).store
      ⟨"/bind Bad", "2002"⟩).store =
      [⟨"2002", some "Bad", false, false⟩] ∧
    (mainHander (mkConfig [] true false)
      (mainHander (mkConfig [] true false) [⟨"1001", some "Bad", false, true⟩]
        ⟨"/unbind", "1001"⟩).store
      ⟨"/bind Bad", "2002"⟩).reply =
      some "[CQ:at,qq=2002] 已为玩家 Bad 添加白名单！" := by
  refine ⟨⟨⟨"1001", some "Bad", false, true⟩, ?_, rfl, rfl⟩, rfl, rfl⟩
  decide

/-- C3 counterexample: an `/admin bind` request from a configured admin whose
whitelist call fails raises `ServerConnectionError` out of the handler
(there is no `try` around `addWhitelist` at that call site), so the HTTP
response is an error page, not the plain text "success". -/
theorem c3_admin_bind_failure_not_success_counterexample :
    (mainHander (mkConfig ["9001"] false true) []
      ⟨"/admin bind 123 Steve", "9001"⟩).response =
      .exn (.serverConnectionError "添加失败，请重试！") ∧
    (mainHander (mkConfig ["9001"] false true) []
      ⟨"/admin bind 123 Steve", "9001"⟩).response ≠ .ok "success" := by
  exact ⟨rfl, by decide⟩

/-- C4: for a `/bind Steve` request that passes every precondition check but
whose whitelist call fails, the binding is indeed not persisted, but the
user receives the success reply, not a connection-error reply: the `except
ServerConnectionError` branch of `bindHandler` evaluates its f-string
without returning it and control falls through to the success `return`. -/
theorem c4_bind_whitelist_failure_replies_success :
    (mainHander (mkConfig [] false true) [] ⟨"/bind Steve", "1001"⟩).wlCalls =
      [.add "Steve"] ∧
    (mainHander (mkConfig [] false true) [] ⟨"/bind Steve", "1001"⟩).store = [] ∧
    (mainHander (mkConfig [] false true) [] ⟨"/bind Steve", "1001"⟩).reply =
      some "[CQ:at,qq=1001] 已为玩家 Steve 添加白名单！" := by
  exact ⟨rfl, rfl, rfl⟩

/-- C5 counterexample: a configured admin is not rejected forever.  After
startup (`init_database ["1001"]` creates the admin's row), the admin sends
`/unbind`, whose first action deletes the row for their id; a subsequent
`/bind Steve` from the same admin then passes the duplicate-binding check and
creates a binding, so a configured admin can self-bind via `/bind`. -/
theorem c5_admin_self_bind_after_unbind_counterexample :
    (mainHander (mkConfig [] true false)
      (mainHander (mkConfig [] true false) (init_database ["1001"] [])
        ⟨"/unbind", "1001"⟩).store
      ⟨"/bind Steve", "1001"⟩).store =
      [⟨"1001", some "Steve", false, false⟩] ∧
    (mainHander (mkConfig [] true false)
      (mainHander (mkConfig [] true false) (init_database ["1001"] [])
        ⟨"/unbind", "1001"⟩).store
      ⟨"/bind Steve", "1001"⟩).reply =
      some "[CQ:at,qq=1001] 已为玩家 Steve 添加白名单！" := by
  exact ⟨rfl, rfl⟩

/-- C8: `query_username` returns the bound username when a row for the id
exists, but in the not-found case `fetchone()` yields `None` and the `[0]`
subscript raises a `TypeError` that the `except sqlite3.Error` clause does
not catch, so the caller sees an unhandled exception instead of a not-found
signal. -/
theorem c8_query_username_raises_when_missing :
    query_username [⟨"7", some "Alex", false, false⟩] (some "7") =
      .ok (some "Alex") ∧
    query_username ([] : Store) (some "42") = .exn .typeError ∧
    query_username [⟨"7", some "Alex", false, false⟩] (some "42") =
      .exn .typeError := by
  exact ⟨rfl, rfl, rfl⟩

/-- C9: a `/bind` request with a token count other than 2 performs no
whitelist call and no store mutation, but the usage f-string in the
dispatcher is a bare expression statement that never reaches `msg`, so the
reply dispatched to the user is the raw message itself, not the usage
message. -/
theorem c9_bind_bad_arity_echoes_raw_message :
    (mainHander (mkConfig [] true true) [⟨"9", some "X", false, false⟩]
      ⟨"/bind", "1001"⟩).reply = some "/bind" ∧
    (mainHander (mkConfig [] true true) [⟨"9", some "X", false, false⟩]
      ⟨"/bind", "1001"⟩).reply ≠
      some "[CQ:at,qq=1001] 绑定命令正确用法：/bind <name>" ∧
    (mainHander (mkConfig [] true true) [⟨"9", some "X", false, false⟩]
      ⟨"/bind", "1001"⟩).store = [⟨"9", some "X", false, false⟩] ∧
    (mainHander (mkConfig [] true true) [⟨"9", some "X", false, false⟩]
      ⟨"/bind", "1001"⟩).wlCalls = [] := by
  refine ⟨rfl, ?_, rfl, rfl⟩
  decide

/-- C6: the prober's retry loop is bounded by the literal 5 and the function
always returns a structured result: the attempt counter never exceeds 5 (in
fact the loop body returns on every path, so exactly one round trip is
performed), and the returned dict is the success dict or the caught-error
dict determined by the first attempt. -/
theorem c6_prober_attempts_bounded (probe : Nat → AttemptResult) :
    (getMinecraftServerInfo probe).2 ≤ 5 ∧
    ((∃ p, probe 0 = .ok p ∧
        (getMinecraftServerInfo probe).1 = mkOnlineInfo p) ∨
     (∃ m, probe 0 = .caught m ∧
        (getMinecraftServerInfo probe).1 = mkCaughtInfo m)) := by
  unfold getMinecraftServerInfo mcLoop
  cases h : probe 0 <;> simp [h]

/-- The rows of the store whose key column equals `qq`. -/
def rowsFor (st : Store) (qq : String) : Store :=
  st.filter (fun r => r.qq = qq)

theorem rowsFor_insertOrReplace_other {a qq : String} (h : a ≠ qq) (st : Store) :
    rowsFor (st.filter (fun r => r.qq ≠ a) ++ [⟨a, none, true, false⟩]) qq =
      rowsFor st qq := by
  unfold rowsFor
  rw [List.filter_append]
  have h2 : ([⟨a, none, true, false⟩] : Store).filter (fun r => r.qq = qq) = [] := by
    simp [h]
  rw [h2, List.append_nil, List.filter_filter]
  refine List.filter_congr ?_
  intro r _
  by_cases hr : r.qq = qq <;> simp [hr, h, Ne.symm h]

theorem init_database_not_mem {qq : String} :
    ∀ (admins : List String), qq ∉ admins → ∀ st : Store,
      rowsFor (init_database admins st) qq = rowsFor st qq := by
  intro admins
  induction admins with
  | nil => intro _ st; rfl
  | cons a rest ih =>
    intro h st
    have ha : a ≠ qq := fun hc => h (hc ▸ List.mem_cons_self a rest)
    have hrest : qq ∉ rest := fun hc => h (List.mem_cons_of_mem a hc)
    show rowsFor (init_database rest _) qq = rowsFor st qq
    rw [ih hrest, rowsFor_insertOrReplace_other ha]

/-- C10: after `init_database` runs with an admin list, every configured
admin id has exactly one row, equal to `(qq, NULL, TRUE, FALSE)`, whatever
the store held for that id before: `INSERT OR REPLACE` drops the old row,
erasing any bound username and any ban flag. -/
theorem c10_init_database_resets_admin_rows (admins : List String) (st : Store)
    (qq : String) (h : qq ∈ admins) :
    rowsFor (init_database admins st) qq = [⟨qq, none, true, false⟩] := by
  induction admins generalizing st with
  | nil => cases h
  | cons a rest ih =>
    show rowsFor (init_database rest _) qq = _
    by_cases hmem : qq ∈ rest
    · exact ih _ hmem
    · have ha : a = qq := by
        rcases List.mem_cons.mp h with h1 | h1
        · exact h1.symm
        · exact absurd h1 hmem
      subst ha
      rw [init_database_not_mem rest hmem]
      unfold rowsFor
      rw [List.filter_append]
      have h1 : (st.filter (fun r => r.qq ≠ a)).filter (fun r => r.qq = a) = [] := by
        rw [List.filter_filter]
        refine List.filter_eq_nil_iff.mpr ?_
        intro r _
        simp
      rw [h1]
      simp

/-- C10 witness. -/
theorem c10_init_database_resets_admin_rows_witness :
    rowsFor (init_database ["9", "1001"]
      [⟨"1001", some "Old", false, true⟩, ⟨"5", some "Z", false, false⟩])
      "1001" = [⟨"1001", none, true, false⟩] :=
  c10_init_database_resets_admin_rows ["9", "1001"] _ "1001" (by decide)

theorem query_ban_mc_of_banned (st : Store) (name : String) (hname : name ≠ "")
    (h : ∃ r ∈ st, r.mc = some name ∧ r.ban = true) :
    query_ban st none (some (.str name)) = .ok true := by
  obtain ⟨r, hr, hmc, hban⟩ := h
  simp [query_ban, truthyStr, truthyVal, hname, List.any_eq_true]
  exact ⟨r, ⟨hr, hmc⟩, hban⟩

theorem query_ban_empty_name (st : Store) :
    query_ban st none (some (.str "")) = .exn .valueError := by
  simp [query_ban, truthyStr, truthyVal]

theorem getD_pair_one {α : Type} (a b d : α) : [a, b].getD 1 d = b := rfl

theorem length_pair_ne_two {α : Type} (a b : α) : ¬ ([a, b].length ≠ 2) := by
  simp

/-- C2 amended: once a row carrying `ban = true` for a username is in the
store, every `/bind` request for that username is rejected without touching
the store and without any whitelist call — but only for as long as such a row
persists (the counterexample shows `/unbind` and `/admin unbind` can delete
the row, erasing the ban). -/
theorem c2_amended_banned_name_blocks_bind_while_row_present (cfg : Config)
    (st : Store) (qid raw name : String)
    (hs : raw ≠ "/status") (hh : raw ≠ "/help")
    (hb : pyStarts raw "/bind" = true)
    (hsplit : pySplit raw = ["/bind", name])
    (hban : ∃ r ∈ st, r.mc = some name ∧ r.ban = true) :
    (mainHander cfg st ⟨raw, qid⟩).store = st ∧
    (mainHander cfg st ⟨raw, qid⟩).wlCalls = [] := by
  unfold mainHander bindBranch
  simp only [hs, hh, hb, hsplit, if_true, if_false, getD_pair_one,
    if_neg (length_pair_ne_two "/bind" name)]
  cases hq1 : query_ban st (some qid) none with
  | exn e => simp [raisedEffects]
  | ok b =>
    cases b with
    | true => simp [repliedEffects]
    | false =>
      by_cases hname : name = ""
      · subst hname
        rw [query_ban_empty_name]
        simp [raisedEffects]
      · rw [query_ban_mc_of_banned st name hname hban]
        simp [repliedEffects]

/-- C2 amended witness. -/
theorem c2_amended_banned_name_blocks_bind_while_row_present_witness :
    (∃ r ∈ ([⟨"1001", some "Bad", false, true⟩] : Store),
        r.mc = some "Bad" ∧ r.ban = true) ∧
    (mainHander (mkConfig [] true true) [⟨"1001", some "Bad", false, true⟩]
      ⟨"/bind Bad", "2002"⟩).store = [⟨"1001", some "Bad", false, true⟩] ∧
    (mainHander (mkConfig [] true true) [⟨"1001", some "Bad", false, true⟩]
      ⟨"/bind Bad", "2002"⟩).wlCalls = [] := by
  have h := c2_amended_banned_name_blocks_bind_while_row_present
    (mkConfig [] true true) [⟨"1001", some "Bad", false, true⟩] "2002"
    "/bind Bad" "Bad" (by decide) (by decide) (by decide) (by decide)
    ⟨⟨"1001", some "Bad", false, true⟩, by decide, rfl, rfl⟩
  exact ⟨⟨⟨"1001", some "Bad", false, true⟩, by decide, rfl, rfl⟩, h.1, h.2⟩

theorem query_ban_qq_clean (st : Store) (qid : String) (hqid : qid ≠ "")
    (h : ∀ r ∈ st, r.qq = qid → r.ban = false) :
    query_ban st (some qid) none = .ok false := by
  simp [query_ban, truthyStr, truthyVal, hqid, List.any_eq_false]
  intro r hr hq
  simpa using h r hr hq

theorem query_ban_mc_clean (st : Store) (name : String) (hname : name ≠ "")
    (h : ∀ r ∈ st, r.mc = some name → r.ban = false) :
    query_ban st none (some (.str name)) = .ok false := by
  simp [query_ban, truthyStr, truthyVal, hname, List.any_eq_false]
  intro r hr hq
  simpa using h r hr hq

theorem query_count_qq_pos (st : Store) (qid : String) (hqid : qid ≠ "")
    (h : ∃ r ∈ st, r.qq = qid) :
    ∃ k, query_count st (some qid) none = .ok k ∧ k ≠ 0 := by
  obtain ⟨r, hr, hq⟩ := h
  refine ⟨(st.filter (fun r => some r.qq = some qid)).length, ?_, ?_⟩
  · simp [query_count, truthyStr, hqid]
  · have : r ∈ st.filter (fun r => some r.qq = some qid) :=
      List.mem_filter.mpr ⟨hr, by simp [hq]⟩
    have hpos := List.length_pos.mpr (List.ne_nil_of_mem this)
    omega

/-- C5 amended: a `/bind` from a configured admin is rejected by the
duplicate-binding check as long as a row for the admin's id (created
unbanned, with no username, by initialization) is still present and neither
that row nor the requested name is banned; the counterexample shows the
admin's own `/unbind` deletes that row, after which the admin can self-bind,
so the rejection is not permanent. -/
theorem c5_amended_bind_rejected_while_admin_row_present (cfg : Config)
    (st : Store) (qid raw name : String)
    (hs : raw ≠ "/status") (hh : raw ≠ "/help")
    (hb : pyStarts raw "/bind" = true)
    (hsplit : pySplit raw = ["/bind", name])
    (hqid : qid ≠ "") (hname : name ≠ "")
    (hrow : ∃ r ∈ st, r.qq = qid)
    (hqclean : ∀ r ∈ st, r.qq = qid → r.ban = false)
    (hmclean : ∀ r ∈ st, r.mc = some name → r.ban = false) :
    (mainHander cfg st ⟨raw, qid⟩).reply =
      some ("[CQ:at,qq=" ++ qid ++
        "] 你已经拥有绑定的游戏ID了！本服务器一人一号，如有其他需要请联系管理员！") ∧
    (mainHander cfg st ⟨raw, qid⟩).store = st ∧
    (mainHander cfg st ⟨raw, qid⟩).wlCalls = [] := by
  unfold mainHander bindBranch
  simp only [hs, hh, hb, hsplit, if_true, if_false, getD_pair_one,
    if_neg (length_pair_ne_two "/bind" name)]
  rw [query_ban_qq_clean st qid hqid hqclean,
    query_ban_mc_clean st name hname hmclean]
  obtain ⟨k, hk, hkne⟩ := query_count_qq_pos st qid hqid hrow
  rw [hk]
  simp [hkne, repliedEffects]

/-- C5 amended witness. -/
theorem c5_amended_bind_rejected_while_admin_row_present_witness :
    (mainHander (mkConfig [] true true) (init_database ["1001"] [])
      ⟨"/bind Steve", "1001"⟩).reply =
      some "[CQ:at,qq=1001] 你已经拥有绑定的游戏ID了！本服务器一人一号，如有其他需要请联系管理员！" ∧
    (mainHander (mkConfig [] true true) (init_database ["1001"] [])
      ⟨"/bind Steve", "1001"⟩).store = init_database ["1001"] [] ∧
    (mainHander (mkConfig [] true true) (init_database ["1001"] [])
      ⟨"/bind Steve", "1001"⟩).wlCalls = [] := by
  have h := c5_amended_bind_rejected_while_admin_row_present
    (mkConfig [] true true) (init_database ["1001"] []) "1001" "/bind Steve"
    "Steve" (by decide) (by decide) (by decide) (by decide) (by decide)
    (by decide) ⟨⟨"1001", none, true, false⟩, by decide, rfl⟩
    (by decide) (by decide)
  exact ⟨h.1, h.2.1, h.2.2⟩


def respOK (r : PyResult String) : Prop :=
  r = .ok "success" ∨ ∃ e, r = .exn e

theorem bindBranch_respOK (cfg : Config) (st : Store) (raw qid : String) :
    respOK (bindBranch cfg st raw qid).response := by
  unfold bindBranch
  dsimp only
  repeat' split
  all_goals first
    | exact Or.inl rfl
    | exact Or.inr ⟨_, rfl⟩

theorem unbindBranch_respOK (cfg : Config) (st : Store) (qid : String) :
    respOK (unbindBranch cfg st qid).response := by
  unfold unbindBranch
  dsimp only
  repeat' split
  all_goals first
    | exact Or.inl rfl
    | exact Or.inr ⟨_, rfl⟩

theorem adminBranch_respOK (cfg : Config) (st : Store) (raw qid : String) :
    respOK (adminBranch cfg st raw qid).response := by
  unfold adminBranch
  dsimp only
  repeat' split
  all_goals first
    | exact Or.inl rfl
    | exact Or.inr ⟨_, rfl⟩

theorem mainHander_response_cases (cfg : Config) (st : Store) (ev : Event) :
    (mainHander cfg st ev).response = .ok "success" ∨
    ∃ e, (mainHander cfg st ev).response = .exn e := by
  have h : respOK (mainHander cfg st ev).response := by
    unfold mainHander
    dsimp only
    repeat' split
    · exact Or.inl rfl
    · exact Or.inl rfl
    · exact bindBranch_respOK cfg st ev.raw_message ev.user_id
    · exact unbindBranch_respOK cfg st ev.user_id
    · exact adminBranch_respOK cfg st ev.raw_message ev.user_id
    · exact Or.inl rfl
  exact h

theorem query_ban_qq_ok (st : Store) (qid : String) (h : qid ≠ "") :
    ∃ b, query_ban st (some qid) none = .ok b := by
  simp [query_ban, truthyStr, truthyVal, h]

theorem query_ban_mc_ok (st : Store) (name : String) (h : name ≠ "") :
    ∃ b, query_ban st none (some (.str name)) = .ok b := by
  simp [query_ban, truthyStr, truthyVal, h]

theorem query_count_qq_ok (st : Store) (qid : String) (h : qid ≠ "") :
    ∃ k, query_count st (some qid) none = .ok k := by
  simp [query_count, truthyStr, h]

theorem query_count_mc_ok (st : Store) (name : String) (h : name ≠ "") :
    ∃ k, query_count st none (some (.str name)) = .ok k := by
  simp [query_count, truthyStr, h]

theorem bindBranch_ok_of_nonempty (cfg : Config) (st : Store) (raw qid : String)
    (hcase : (pySplit raw).length ≠ 2 ∨
      (qid ≠ "" ∧ (pySplit raw).getD 1 "" ≠ "")) :
    (bindBranch cfg st raw qid).response = .ok "success" := by
  unfold bindBranch
  by_cases hlen : (pySplit raw).length ≠ 2
  · simp [hlen, repliedEffects]
  · rcases hcase with hc | ⟨hqid, hname⟩
    · exact absurd hc hlen
    · simp only [hlen, if_false]
      obtain ⟨b1, hb1⟩ := query_ban_qq_ok st qid hqid
      obtain ⟨b2, hb2⟩ := query_ban_mc_ok st ((pySplit raw).getD 1 "") hname
      obtain ⟨k1, hk1⟩ := query_count_qq_ok st qid hqid
      obtain ⟨k2, hk2⟩ := query_count_mc_ok st ((pySplit raw).getD 1 "") hname
      rw [hb1]
      cases b1 with
      | true => simp [repliedEffects]
      | false =>
        rw [hb2]
        cases b2 with
        | true => simp [repliedEffects]
        | false =>
          rw [hk1]
          by_cases hcq : k1 ≠ 0
          · simp [hcq, repliedEffects]
          · simp only [hcq, if_false]
            rw [hk2]
            by_cases hcm : k2 ≠ 0
            · simp [hcm, repliedEffects]
            · simp [hcm, repliedEffects]

/-- C3 amended: the root handler never returns a plain response other than
"success": its response is always either the text "success" or a propagated
uncaught exception.  The response is "success" unconditionally for
`/status`, `/help` and unrecognized messages, and for every `/bind` whose
token count differs from 2 or whose sender id and name token are both
nonempty.  The remaining command paths can raise uncaught exceptions —
`ServerConnectionError` from the whitelist controller during `/unbind` and
`/admin` actions, `IndexError` from the `commands[3]` subscript in the
`/admin unbind` / `/admin ban` reply f-strings, and `ValueError` from the
store layer when `/bind` or `/unbind` run with an empty sender id or an
empty name token (e.g. `raw_message = "/bind "`) — and then the handler
propagates the exception and the HTTP response is an error page, not
"success". -/
theorem c3_amended_success_unless_exception (cfg : Config) (st : Store)
    (ev : Event) :
    ((mainHander cfg st ev).response = .ok "success" ∨
      ∃ e, (mainHander cfg st ev).response = .exn e) ∧
    ((ev.raw_message = "/status" ∨ ev.raw_message = "/help" ∨
      (pyStarts ev.raw_message "/bind" = false ∧ ev.raw_message ≠ "/unbind" ∧
       pyStarts ev.raw_message "/admin" = false)) →
      (mainHander cfg st ev).response = .ok "success") ∧
    (pyStarts ev.raw_message "/bind" = true →
      ((pySplit ev.raw_message).length ≠ 2 ∨
        (ev.user_id ≠ "" ∧ (pySplit ev.raw_message).getD 1 "" ≠ "")) →
      (mainHander cfg st ev).response = .ok "success") := by
  refine ⟨mainHander_response_cases cfg st ev, ?_, ?_⟩
  · obtain ⟨raw, qid⟩ := ev
    rintro (h | h | ⟨h1, h2, h3⟩)
    · dsimp at h
      subst h
      simp [mainHander, repliedEffects]
    · dsimp at h
      subst h
      simp [mainHander, repliedEffects]
    · dsimp at h1 h2 h3
      by_cases hst : raw = "/status"
      · subst hst; simp [mainHander, repliedEffects]
      · by_cases hhp : raw = "/help"
        · subst hhp; simp [mainHander, repliedEffects]
        · simp [mainHander, hst, hhp, h1, h2, h3]
  · obtain ⟨raw, qid⟩ := ev
    intro hb hcase
    dsimp at hb hcase ⊢
    by_cases hst : raw = "/status"
    · subst hst; simp [mainHander, repliedEffects]
    · by_cases hhp : raw = "/help"
      · subst hhp; simp [mainHander, repliedEffects]
      · have hmain : mainHander cfg st ⟨raw, qid⟩ = bindBranch cfg st raw qid := by
          simp [mainHander, hst, hhp, hb]
        rw [hmain]
        exact bindBranch_ok_of_nonempty cfg st raw qid hcase

/-- C3 amended witness. -/
theorem c3_amended_success_unless_exception_witness :
    (mainHander (mkConfig [] true true) [] ⟨"/status", "1"⟩).response =
      .ok "success" ∧
    (mainHander (mkConfig [] true true) [] ⟨"/bind Steve", "1001"⟩).response =
      .ok "success" :=
  ⟨(c3_amended_success_unless_exception (mkConfig [] true true) []
      ⟨"/status", "1"⟩).2.1 (Or.inl rfl),
   (c3_amended_success_unless_exception (mkConfig [] true true) []
      ⟨"/bind Steve", "1001"⟩).2.2 (by decide)
      (Or.inr ⟨by decide, by decide⟩)⟩

def segConcat (f : ServerCfg → String) : List ServerCfg → String
  | [] => ""
  | s :: t => f s ++ segConcat f t

theorem foldl_append_segConcat (f : ServerCfg → String) :
    ∀ (l : List ServerCfg) (acc : String),
      l.foldl (fun m s => m ++ f s) acc = acc ++ segConcat f l := by
  intro l
  induction l with
  | nil => intro acc; simp [segConcat]
  | cons s t ih => intro acc; simp [segConcat, ih, String.append_assoc]

theorem segConcat_append (f : ServerCfg → String) (l1 l2 : List ServerCfg) :
    segConcat f (l1 ++ l2) = segConcat f l1 ++ segConcat f l2 := by
  induction l1 with
  | nil => simp [segConcat]
  | cons s t ih => simp [segConcat, ih, String.append_assoc]

theorem statusHandler_decomp (servers : List ServerCfg)
    (probe : String → Nat → AttemptResult) (qid : String) (serv : ServerCfg)
    (hmem : serv ∈ servers) :
    ∃ x z, statusHandler servers probe qid =
      x ++ serverSegment probe serv ++ z := by
  obtain ⟨pre, post, rfl⟩ := List.append_of_mem hmem
  refine ⟨("[CQ:at,qq=" ++ qid ++ "] ====== 服务器状态一览 ======") ++
    segConcat (serverSegment probe) pre, segConcat (serverSegment probe) post, ?_⟩
  unfold statusHandler
  rw [foldl_append_segConcat, segConcat_append]
  simp [segConcat, String.append_assoc]

theorem strInfix_extend {seg t : String} (h : ∃ a b, seg = a ++ t ++ b)
    (x z : String) : ∃ a b, x ++ seg ++ z = a ++ t ++ b := by
  obtain ⟨a, b, hab⟩ := h
  refine ⟨x ++ a, b ++ z, ?_⟩
  rw [hab]
  simp [String.append_assoc]

theorem serverSegment_mentions_name (probe : String → Nat → AttemptResult)
    (s2 : ServerCfg) :
    ∃ a b, serverSegment probe s2 = a ++ ("服务器名称：" ++ s2.name) ++ b := by
  unfold serverSegment
  set S := (getMinecraftServerInfo (probe (s2.host ++ ":" ++ toString s2.port))).1 with hS
  dsimp only
  by_cases ho : S.online = true
  · refine ⟨"\n            \n",
      "\n延迟：" ++ renderPyField S.latency ++ " ms" ++
      "\n在线人数：" ++ toString S.players_online ++ "/" ++
      toString S.players_max ++
      "\n在线玩家：" ++ renderPlayers S.players ++
      "\n当前状态：在线", ?_⟩
    simp only [ho, if_true]
    rw [show ("\n            \n服务器名称：" : String) = "\n            \n" ++ "服务器名称：" from rfl]
    simp only [String.append_assoc]
  · by_cases he : S.error = true
    · refine ⟨"\n", "            " ++ "\n当前状态：未知（" ++ S.msg ++ "）", ?_⟩
      simp only [ho, he, Bool.false_eq_true, if_true, if_false]
      rw [show ("\n服务器名称：" : String) = "\n" ++ "服务器名称：" from rfl]
      simp only [String.append_assoc]
    · refine ⟨"\n            \n", "\n当前状态：离线", ?_⟩
      simp only [ho, he, Bool.false_eq_true, if_true, if_false]
      rw [show ("\n            \n服务器名称：" : String) = "\n            \n" ++ "服务器名称：" from rfl]
      simp only [String.append_assoc]

theorem getInfo_caught (p : Nat → AttemptResult) (m : String)
    (h : p 0 = .caught m) :
    getMinecraftServerInfo p = (mkCaughtInfo m, 1) := by
  simp [getMinecraftServerInfo, mcLoop, h]

theorem serverSegment_caught (probe : String → Nat → AttemptResult)
    (serv : ServerCfg) (m : String)
    (h : probe (serv.host ++ ":" ++ toString serv.port) 0 = .caught m) :
    serverSegment probe serv =
      "\n服务器名称：" ++ serv.name ++ "            " ++
      "\n当前状态：未知（" ++ m ++ "）" := by
  unfold serverSegment
  rw [getInfo_caught _ m h]
  simp [mkCaughtInfo]

/-- C7: when the probe of a configured server's address fails with a caught
exception, the prober returns (rather than raises) a dict with
`online=false`, `error=true` and the message, and the status report contains
that server's "未知（...）" line while the segment of every configured server
(in particular every remaining one) still appears in the report. -/
theorem c7_unreachable_server_reported_unknown (servers : List ServerCfg)
    (probe : String → Nat → AttemptResult) (qid : String) (serv : ServerCfg)
    (m : String) (hmem : serv ∈ servers)
    (hprobe : probe (serv.host ++ ":" ++ toString serv.port) 0 = .caught m) :
    ((getMinecraftServerInfo (probe (serv.host ++ ":" ++ toString serv.port))).1.online = false ∧
     (getMinecraftServerInfo (probe (serv.host ++ ":" ++ toString serv.port))).1.error = true ∧
     (getMinecraftServerInfo (probe (serv.host ++ ":" ++ toString serv.port))).1.msg = m) ∧
    (∃ a b, statusHandler servers probe qid =
      a ++ ("\n当前状态：未知（" ++ m ++ "）") ++ b) ∧
    (∀ s2 ∈ servers, ∃ a b, statusHandler servers probe qid =
      a ++ ("服务器名称：" ++ s2.name) ++ b) := by
  refine ⟨?_, ?_, ?_⟩
  · rw [getInfo_caught _ m hprobe]
    exact ⟨rfl, rfl, rfl⟩
  · obtain ⟨x, z, hxz⟩ := statusHandler_decomp servers probe qid serv hmem
    rw [hxz, serverSegment_caught probe serv m hprobe]
    refine ⟨x ++ ("\n服务器名称：" ++ serv.name ++ "            "), z, ?_⟩
    simp only [String.append_assoc]
  · intro s2 hs2
    obtain ⟨x2, z2, hxz2⟩ := statusHandler_decomp servers probe qid s2 hs2
    rw [hxz2]
    exact strInfix_extend (serverSegment_mentions_name probe s2) x2 z2

/-- C7 witness. -/
theorem c7_unreachable_server_reported_unknown_witness :
    ((getMinecraftServerInfo ((fun addr _ => if addr = "a.example:1"
        then AttemptResult.caught "no route"
        else AttemptResult.ok ⟨"1.20", 763, ["x"], 1, 20, "hi", "12.3"⟩)
        ("a.example" ++ ":" ++ toString (1 : Nat)))).1.online = false ∧
     (getMinecraftServerInfo ((fun addr _ => if addr = "a.example:1"
        then AttemptResult.caught "no route"
        else AttemptResult.ok ⟨"1.20", 763, ["x"], 1, 20, "hi", "12.3"⟩)
        ("a.example" ++ ":" ++ toString (1 : Nat)))).1.error = true ∧
     (getMinecraftServerInfo ((fun addr _ => if addr = "a.example:1"
        then AttemptResult.caught "no route"
        else AttemptResult.ok ⟨"1.20", 763, ["x"], 1, 20, "hi", "12.3"⟩)
        ("a.example" ++ ":" ++ toString (1 : Nat)))).1.msg = "no route") ∧
    (∃ a b, statusHandler [⟨"A", "a.example", 1⟩, ⟨"B", "b.example", 2⟩]
      (fun addr _ => if addr = "a.example:1"
        then AttemptResult.caught "no route"
        else AttemptResult.ok ⟨"1.20", 763, ["x"], 1, 20, "hi", "12.3"⟩) "5" =
      a ++ ("\n当前状态：未知（" ++ "no route" ++ "）") ++ b) ∧
    (∀ s2 ∈ [(⟨"A", "a.example", 1⟩ : ServerCfg), ⟨"B", "b.example", 2⟩],
      ∃ a b, statusHandler [⟨"A", "a.example", 1⟩, ⟨"B", "b.example", 2⟩]
        (fun addr _ => if addr = "a.example:1"
          then AttemptResult.caught "no route"
          else AttemptResult.ok ⟨"1.20", 763, ["x"], 1, 20, "hi", "12.3"⟩) "5" =
        a ++ ("服务器名称：" ++ s2.name) ++ b) :=
  c7_unreachable_server_reported_unknown
    [⟨"A", "a.example", 1⟩, ⟨"B", "b.example", 2⟩]
    (fun addr _ => if addr = "a.example:1"
      then AttemptResult.caught "no route"
      else AttemptResult.ok ⟨"1.20", 763, ["x"], 1, 20, "hi", "12.3"⟩)
    "5" ⟨"A", "a.example", 1⟩ "no route" (by decide) (by decide)
